import Mathlib

/-!
Verification of the Ledger Synchronization & Reconciliation Engine of the
metrikprotocol repository, as implemented by the `useInvoiceNFT` React hook
(`src/unnamed/part_008`).  The hook talks to an external ledger (a smart
contract reached over RPC) through a read client; every remote read may
throw.  We embed the ledger boundary as a record of total functions into
`Option` (`none` models a thrown/unsupported call), and each hook operation
as a pure function of that boundary plus its arguments, returning the new
component state it would store via `setInvoices` / `setUserInvoices`.
-/

namespace MetrikInvoice

/-- Raw result of the contract's `getInvoiceDetails` call, as destructured by
the hook (`RawInvoice` in the source).  Addresses and ids are strings;
`creditAmount` and `dueDate` are the contract's big-integer values. -/
structure RawInvoice where
  invoiceId : String
  supplier : String
  buyer : String
  creditAmount : Int
  dueDate : Int
  ipfsHash : String
  isVerified : Bool
deriving DecidableEq, Repr

/-- A cache entry of the hook's `invoices` / `userInvoices` state (`Invoice`
in the source).  The source stores `creditAmount` as the decimal string
`creditAmount.toString()` and `dueDate` as a `Date` built from
`Number(dueDate) * 1000`; we keep the integer contents (the string/Date
constructors are injective on them).  `isBurned` is the source's optional
field, absent (`none`) on entries built by `fetchInvoices` and
`fetchUserInvoices`. -/
structure Invoice where
  id : String
  invoiceId : String
  supplier : String
  buyer : String
  creditAmount : Int
  dueDate : Int
  ipfsHash : String
  isVerified : Bool
  isBurned : Option Bool := none
  burnTime : Option Int := none
  burnReason : Option String := none
deriving DecidableEq, Repr

/-- Result of the contract's `getHistoricalInvoiceRecord` call
(`HistoricalInvoiceRecord` in the source). -/
structure HistoricalInvoiceRecord where
  tokenId : Nat
  invoiceId : String
  supplier : String
  buyer : String
  creditAmount : Int
  dueDate : Int
  ipfsHash : String
  isVerified : Bool
  mintTime : Int
  burnTime : Int
  isBurned : Bool
  burnReason : String
deriving DecidableEq, Repr

/-- An `InvoiceMinted` event log as consumed by `fetchUserInvoices`: only
`log.args.tokenId` is read.  The source skips a log when `!tokenId`
(JavaScript falsiness), which holds both for an absent value and for `0n`;
we model both by `tokenId = 0`. -/
structure MintLog where
  tokenId : Nat
deriving DecidableEq, Repr

/-- Result of the contract's `getUserInvoiceStatistics` call
(`UserInvoiceStatistics` in the source). -/
structure UserInvoiceStatistics where
  totalMinted : Int
  totalBurned : Int
  totalActive : Int
  totalCreditAmount : Int
deriving DecidableEq, Repr

/-- The ledger boundary the hook reads through.  Each field is one remote
call; `none` models the call throwing (or the function being unsupported by
the deployed contract / provider).
`logsFor a` is the `getLogs` query of `fetchUserInvoices` filtered by
`supplier = a` over the bounded recent block window; `allLogs` is the second,
unfiltered `getLogs` query issued afterwards by the same function. -/
structure Ledger where
  totalSupply : Option Int := none
  getInvoiceDetails : Nat → Option RawInvoice := fun _ => none
  logsFor : String → Option (List MintLog) := fun _ => none
  allLogs : Option (List MintLog) := none
  getUserMintedTokens : String → Option (List Nat) := fun _ => none
  getHistoricalInvoiceRecord : Nat → Option HistoricalInvoiceRecord := fun _ => none
  statsFor : String → Option UserInvoiceStatistics := fun _ => none

/-- Mapping from a successful `getInvoiceDetails` read at `tokenId` to the
cache entry pushed by the hook (shared verbatim by `fetchInvoices`, the
per-log loop of `fetchUserInvoices`, its direct id-7 check and its fallback
loop): `id := tokenId.toString()`, `dueDate := Number(dueDate) * 1000`. -/
def mkInvoice (tokenId : Nat) (d : RawInvoice) : Invoice :=
  { id := toString tokenId
    invoiceId := d.invoiceId
    supplier := d.supplier
    buyer := d.buyer
    creditAmount := d.creditAmount
    dueDate := d.dueDate * 1000
    ipfsHash := d.ipfsHash
    isVerified := d.isVerified }

/-- The hardcoded probe range `for (let tokenId = 1; tokenId <= 20; ...)`
used by `fetchInvoices` (twice) and by the fallback of `fetchUserInvoices`. -/
def tokenRange : List Nat := (List.range 20).map (fun i => i + 1)

/-- One iteration of the probe loop of `fetchInvoices`: a throwing read is
skipped (`continue`), and a successful read is kept only when
`invoiceDetails && invoiceDetails.supplier` is truthy, i.e. the supplier
string is nonempty. -/
def probeToken (L : Ledger) (tokenId : Nat) : List Invoice :=
  match L.getInvoiceDetails tokenId with
  | none => []
  | some d => if d.supplier ≠ "" then [mkInvoice tokenId d] else []

/-- The whole probe loop of `fetchInvoices` over a list of token ids. -/
def probeIds (L : Ledger) (ids : List Nat) : List Invoice :=
  ids.flatMap (probeToken L)

/-- The `totalSupply` local of `fetchInvoices`: initialised to `0n` and left
at `0n` when the read throws (`catch (err) { totalSupply = 0n }`). -/
def effectiveTotalSupply (L : Ledger) : Int :=
  match L.totalSupply with
  | some n => n
  | none => 0

/-- Line 114 of the hook:
`maxTokensToCheck = Math.max(Number(totalSupply) + 5, 20)`.  The value is
computed by `fetchInvoices` but never used afterwards — the probe loop below
iterates over the fixed range 1..20 — so it is embedded as its own
definition. -/
def maxTokensToCheck (L : Ledger) : Int :=
  max (effectiveTotalSupply L + 5) 20

/-- `fetchInvoices(userAddress)`.  Returns the new `invoices` state together
with the new `error` state.  The guard clause fires when the read client,
contract or `userAddress` is missing; we model the client and contract as
configured, so only an empty `userAddress` trips it.  Every remote read of
the body is individually wrapped in `try`/`catch` (the `totalSupply` read
and each loop iteration), so the outer `catch` — whose fallback repeats the
very same 1..20 loop — is unreachable and is not modelled separately.
Finding no invoice is not an error: the state becomes `[]` with the error
cleared. -/
def fetchInvoices (L : Ledger) (userAddress : String) :
    List Invoice × Option String :=
  if userAddress = "" then
    ([], some "Fetch invoices: missing address or contract.")
  else
    let invoicesArr := probeIds L tokenRange
    if invoicesArr.isEmpty then ([], none) else (invoicesArr, none)

/-- The cache update performed when `fetchInvoices` completes: the React
state setter `setInvoices(invoicesArr)` REPLACES the previous cached list
with the newly fetched one (there is no merge with `prev`). -/
def applyFetchInvoices (prev : List Invoice) (L : Ledger) (userAddress : String) :
    List Invoice :=
  let _ := prev
  (fetchInvoices L userAddress).1

/-- Mapping from a successful `getHistoricalInvoiceRecord` read to the cache
entry pushed by `fetchAllUserInvoices`: the burn metadata is carried along,
with `burnTime` kept only when truthy (`historicalRecord.burnTime ? ... :
undefined` — `0n` is falsy). -/
def histToInvoice (tokenId : Nat) (r : HistoricalInvoiceRecord) : Invoice :=
  { id := toString tokenId
    invoiceId := r.invoiceId
    supplier := r.supplier
    buyer := r.buyer
    creditAmount := r.creditAmount
    dueDate := r.dueDate * 1000
    ipfsHash := r.ipfsHash
    isVerified := r.isVerified
    isBurned := some r.isBurned
    burnTime := if r.burnTime ≠ 0 then some (r.burnTime * 1000) else none
    burnReason := some r.burnReason }

/-- `fetchAllUserInvoices(userAddress)`: reads `getUserMintedTokens`, then
one `getHistoricalInvoiceRecord` per token — a throwing per-token read is
logged and skipped, a record with `tokenId = 0n` is dropped — and stores the
result via `setUserInvoices`.  A missing `userAddress` (guard clause) or a
throw of the token-list read (outer `catch`) stores the empty list.  In
every path the previous `userInvoices` state is REPLACED. -/
def fetchAllUserInvoices (L : Ledger) (userAddress : String) : List Invoice :=
  if userAddress = "" then []
  else
    match L.getUserMintedTokens userAddress with
    | none => []
    | some tokens =>
      tokens.flatMap (fun tokenId =>
        match L.getHistoricalInvoiceRecord tokenId with
        | none => []
        | some r => if r.tokenId ≠ 0 then [histToInvoice tokenId r] else [])

/-- The cache update performed by `fetchAllUserInvoices`:
`setUserInvoices(allUserInvoices)` replaces the previous cached list. -/
def applyFetchAllUserInvoices (prev : List Invoice) (L : Ledger)
    (userAddress : String) : List Invoice :=
  let _ := prev
  fetchAllUserInvoices L userAddress

/-- JavaScript's `String.prototype.toLowerCase()` on the character content,
used by the hook only in the fallback comparison
`invoiceDetails.supplier.toLowerCase() === userAddress.toLowerCase()`. -/
def lowerStr (s : String) : String :=
  ⟨s.data.map Char.toLower⟩

/-- The per-event loop of `fetchUserInvoices`: for each mint log, a falsy
`tokenId` (`!tokenId`, hence also `0n`) is skipped; a throwing
`getInvoiceDetails` read is caught, logged and the loop continues; a
successful read is pushed unconditionally (`if (invoiceDetails)` — a struct
is always truthy; note there is no check that the supplier equals the
requested user, the filtering rests on the event query). -/
def processLogs (L : Ledger) (logs : List MintLog) : List Invoice :=
  logs.flatMap (fun log =>
    if log.tokenId = 0 then []
    else
      match L.getInvoiceDetails log.tokenId with
      | none => []
      | some d => [mkInvoice log.tokenId d])

/-- The hardcoded direct check of token id 7 performed by
`fetchUserInvoices` after the event loop: if the read succeeds and the
returned supplier is exactly (`===`, case-sensitively) the requested
`userAddress`, and no entry with id `'7'` is present yet, the entry is
appended; a throwing read is caught and ignored. -/
def directCheck7 (L : Ledger) (userAddress : String) (arr : List Invoice) :
    List Invoice :=
  match L.getInvoiceDetails 7 with
  | none => arr
  | some d =>
    if d.supplier = userAddress then
      if arr.any (fun inv => inv.id = "7") then arr
      else arr ++ [mkInvoice 7 d]
    else arr

/-- The fallback loop of `fetchUserInvoices` (outer `catch`): probe token
ids 1..20, keeping entries whose supplier equals the user address
case-insensitively (`toLowerCase()` on both sides); throwing reads are
skipped. -/
def fallbackUser (L : Ledger) (userAddress : String) : List Invoice :=
  tokenRange.flatMap (fun t =>
    match L.getInvoiceDetails t with
    | none => []
    | some d =>
      if lowerStr d.supplier = lowerStr userAddress then [mkInvoice t d] else [])

/-- `fetchUserInvoices(userAddress)`.  First component: the new
`userInvoices` state (`none` when the function returns without calling
`setUserInvoices`); second component: the value returned to the caller
(`none` for `undefined`).  Control flow of the source: the windowed
supplier-filtered `getLogs` feeds the per-event loop, then the direct id-7
check, then a second unfiltered `getLogs` whose failure RETURNS EARLY
without storing anything; only then is `setUserInvoices` called.  If the
first `getLogs` (or the block-number read before it) throws, the outer
`catch` runs the 1..20 fallback: a nonempty result is stored and returned,
an empty one leads to `setError(err)` and `setUserInvoices([])`.  The guard
clause checks only the client and contract (not `userAddress`), which we
model as configured. -/
def fetchUserInvoices (L : Ledger) (userAddress : String) :
    Option (List Invoice) × Option (List Invoice) :=
  match L.logsFor userAddress with
  | some logs =>
    let arr := directCheck7 L userAddress (processLogs L logs)
    (match L.allLogs with
     | none => (none, none)
     | some _ => (some arr, some arr))
  | none =>
    let fb := fallbackUser L userAddress
    if fb.isEmpty then (some [], none) else (some fb, some fb)

/-- The hook's component state holding the two invoice caches. -/
structure HookState where
  invoices : List Invoice
  userInvoices : List Invoice
deriving DecidableEq, Repr

/-- Modelled from the spec: `parseAmount` lives in `src/lib/utils/contracts`,
which is not among the provided sources; the spec (§3) fixes
`creditAmount` as a fixed-point integer of scale 6, so the conversion scales
a decimal-string amount by `10^6` (viem's `parseUnits(amount, 6)`),
throwing (`none`) on a malformed string.  We model the integral sublanguage:
a nonempty all-digit string parses to its value times `10^6`. -/
def parseAmount (s : String) : Option Int :=
  if s.data ≠ [] ∧ s.data.all Char.isDigit then
    some ((s.data.foldl (fun acc c => acc * 10 + (c.toNat - 48)) 0 : Nat) * 1000000)
  else none

/-- Outcomes of the ledger-interaction pipeline of a mutation
(`simulateContract`, `writeContract`, `waitForTransactionReceipt`): `none`
in a stage models that call throwing. -/
structure MutationEnv where
  simulate : Option Unit := some ()
  submit : Option String := none
  receipt : Bool := false
  postLedger : Ledger := {}

/-- Result of a mutation as seen by the caller: `validationError` is a throw
of the input conversion before anything else, `clientError` the explicit
`throw new Error('Wallet client, address, or public client not available.')`
guard (also before any ledger interaction), `ledgerError` a throw of one of
the ledger calls (rethrown verbatim by the hook's `catch` after
`setError`/`toast`), `success h` the transaction hash returned after the
receipt. -/
inductive MintResult where
  | validationError (e : String)
  | clientError (e : String)
  | ledgerError (e : String)
  | success (hash : String)
deriving DecidableEq, Repr

/-- `mintInvoiceNFT(supplier, uniqueId, amount, dueDate, metadata)`, wallet
path (lines 486-512; the Privy branch delegates to `useSeamlessTransaction`,
outside the provided sources).  `parseAmount(amount, 6)` is the only
computation before the client guard (`!walletClient || !currentAddress ||
!publicClient`, modelled by an empty `currentAddress` with the clients
available) and the ledger pipeline: `dueDateTimestamp` is computed with
`BigInt(Math.floor(dueDate.getTime() / 1000))`, which cannot throw, and no
validation of `amount`, `dueDate` or the other fields is performed.  After a
successful receipt the hook refetches both caches
(`fetchInvoices(currentAddress)`; `fetchUserInvoices(currentAddress)`, whose
early-return path leaves `userInvoices` untouched); any failure leaves the
state `s` unchanged and rethrows. -/
def mintInvoiceNFT (env : MutationEnv) (currentAddress : String)
    (amount : String) (dueDate : Int) (s : HookState) : HookState × MintResult :=
  let _ := dueDate
  match parseAmount amount with
  | none => (s, .validationError "parseAmount")
  | some _ =>
    if currentAddress = "" then
      (s, .clientError "Wallet client, address, or public client not available.")
    else
    match env.simulate with
    | none => (s, .ledgerError "simulateContract")
    | some _ =>
      match env.submit with
      | none => (s, .ledgerError "writeContract")
      | some hash =>
        if env.receipt then
          ({ invoices := (fetchInvoices env.postLedger currentAddress).1
             userInvoices :=
              ((fetchUserInvoices env.postLedger currentAddress).1).getD s.userInvoices },
           .success hash)
        else (s, .ledgerError "waitForTransactionReceipt")

/-- `verifyInvoice(tokenId)`, wallet path (lines 538-563): the same client
guard and simulate/submit/receipt pipeline, then
`fetchInvoices(currentAddress)` only; failures leave the state unchanged and
rethrow. -/
def verifyInvoice (env : MutationEnv) (currentAddress : String)
    (s : HookState) : HookState × MintResult :=
  if currentAddress = "" then
    (s, .clientError "Wallet client, address, or public client not available.")
  else
  match env.simulate with
  | none => (s, .ledgerError "simulateContract")
  | some _ =>
    match env.submit with
    | none => (s, .ledgerError "writeContract")
    | some hash =>
      if env.receipt then
        ({ s with invoices := (fetchInvoices env.postLedger currentAddress).1 },
         .success hash)
      else (s, .ledgerError "waitForTransactionReceipt")

/-- `getUserInvoiceStatistics(userAddress)`: a single contract read whose
result is returned as-is; a throwing read (or missing client/contract,
modelled as configured) yields `null`.  No local computation over the cached
invoices takes place. -/
def getUserInvoiceStatistics (L : Ledger) (userAddress : String) :
    Option UserInvoiceStatistics :=
  match L.statsFor userAddress with
  | some stats => some stats
  | none => none

/-- From the spec's words (§4.7), for comparison with the code: the
statistics as a pure derivation over the cached entities —
`totalMinted = count(all)`, `totalBurned = count(isBurned)`,
`totalActive = totalMinted - totalBurned`,
`totalCreditAmount = sum(creditAmount)`. -/
def specDerivedStatistics (entities : List Invoice) : UserInvoiceStatistics :=
  { totalMinted := (entities.length : Int)
    totalBurned := ((entities.filter (fun i => i.isBurned = some true)).length : Int)
    totalActive := (entities.length : Int) -
      ((entities.filter (fun i => i.isBurned = some true)).length : Int)
    totalCreditAmount := (entities.map (fun i => i.creditAmount)).sum }

/-! ## Concrete fixtures used by counterexamples and witnesses -/

/-- A ledger entity at token id 3 owned by alice. -/
def rawAt3 : RawInvoice :=
  { invoiceId := "INV-3", supplier := "0xalice", buyer := "0xbob",
    creditAmount := 5000000, dueDate := 1800000000, ipfsHash := "Qm3",
    isVerified := true }

/-- A ledger whose only entity sits at token id 3; all other reads throw,
`totalSupply`, log queries and statistics included. -/
def ledgerT3 : Ledger :=
  { getInvoiceDetails := fun t => if t = 3 then some rawAt3 else none }

/-- A ledger entity at token id 21 — beyond the hardcoded 1..20 probe. -/
def rawAt21 : RawInvoice :=
  { invoiceId := "INV-21", supplier := "0xsupplier", buyer := "0xbuyer",
    creditAmount := 100000000, dueDate := 1700000000, ipfsHash := "Qm21",
    isVerified := false }

/-- A ledger holding 21 tokens of which only id 21 still resolves
(`totalSupply` reads 21). -/
def ledgerC2 : Ledger :=
  { totalSupply := some 21
    getInvoiceDetails := fun t => if t = 21 then some rawAt21 else none }

/-! ## Helper lemmas -/

/-- Membership in the hardcoded probe range is exactly `1 ≤ t ≤ 20`. -/
theorem mem_tokenRange {t : Nat} : t ∈ tokenRange ↔ 1 ≤ t ∧ t ≤ 20 := by
  simp only [tokenRange, List.mem_map, List.mem_range]
  constructor
  · rintro ⟨a, ha, rfl⟩
    omega
  · rintro ⟨h1, h2⟩
    exact ⟨t - 1, by omega, by omega⟩

/-- With a nonempty address, the stored `invoices` state of `fetchInvoices`
is the probe of the fixed range (the empty/nonempty branch merely restates
the empty list). -/
theorem fetchInvoices_fst (L : Ledger) {a : String} (h : a ≠ "") :
    (fetchInvoices L a).1 = probeIds L tokenRange := by
  unfold fetchInvoices
  rw [if_neg h]
  by_cases he : (probeIds L tokenRange).isEmpty
  · simp only [he, if_pos]
    exact (List.isEmpty_iff.mp he).symm
  · simp [he]

/-- A successful read with a truthy supplier at a probed id lands in the
probe result, regardless of what the other reads in the batch do. -/
theorem mem_probeIds {L : Ledger} {ids : List Nat} {t : Nat} {d : RawInvoice}
    (ht : t ∈ ids) (hd : L.getInvoiceDetails t = some d)
    (hs : d.supplier ≠ "") : mkInvoice t d ∈ probeIds L ids := by
  unfold probeIds
  exact List.mem_flatMap.mpr ⟨t, ht, by simp [probeToken, hd, hs]⟩

/-! ## Claim C10 -/

/-- Claim C10: the result of `fetchInvoices` is independent of its
`userAddress` argument — for any two nonempty addresses against the same
ledger state, the stored invoice set (and error state) is identical, because
the enumeration loop keeps every found entity with a truthy supplier and
never consults the caller-supplied owner. -/
theorem fetchInvoices_independent_of_userAddress (L : Ledger)
    {a1 a2 : String} (h1 : a1 ≠ "") (h2 : a2 ≠ "") :
    fetchInvoices L a1 = fetchInvoices L a2 := by
  unfold fetchInvoices
  rw [if_neg h1, if_neg h2]

/-- Witness for C10 at two concrete distinct addresses. -/
theorem fetchInvoices_independent_of_userAddress_witness :
    fetchInvoices ledgerT3 "0xalice" = fetchInvoices ledgerT3 "0xbuyerX" :=
  fetchInvoices_independent_of_userAddress ledgerT3 (by decide) (by decide)

/-! ## Claim C2 -/

/-- Claim C2, counterexample: with `totalSupply = 21` the derived bound
`maxTokensToCheck` is 26, and an existing entity at token id 21 (≤ the
bound, truthy supplier) is nevertheless absent from the `fetchInvoices`
result — the probe loop iterates over the fixed range 1..20 and ignores
`maxTokensToCheck`. -/
theorem fetchInvoices_misses_token_21 :
    maxTokensToCheck ledgerC2 = 26 ∧
    ledgerC2.getInvoiceDetails 21 = some rawAt21 ∧
    rawAt21.supplier ≠ "" ∧
    (fetchInvoices ledgerC2 "0xcaller").1 = [] := by decide

/-- Claim C2 (amended): completeness of the fallback enumeration holds only
up to the hardcoded floor 20, not up to `maxTokensToCheck`: every existing
entity with `1 ≤ tokenId ≤ 20` and a truthy supplier appears in the
`fetchInvoices` result. -/
theorem fetchInvoices_complete_up_to_20 (L : Ledger) {a : String}
    (ha : a ≠ "") {t : Nat} {d : RawInvoice} (h1 : 1 ≤ t) (h2 : t ≤ 20)
    (hd : L.getInvoiceDetails t = some d) (hs : d.supplier ≠ "") :
    mkInvoice t d ∈ (fetchInvoices L a).1 := by
  rw [fetchInvoices_fst L ha]
  exact mem_probeIds (mem_tokenRange.mpr ⟨h1, h2⟩) hd hs

/-- Witness for the amended C2 at token id 3 of the concrete ledger. -/
theorem fetchInvoices_complete_up_to_20_witness :
    mkInvoice 3 rawAt3 ∈ (fetchInvoices ledgerT3 "0xalice").1 :=
  fetchInvoices_complete_up_to_20 ledgerT3 (by decide) (by decide) (by decide)
    (by decide) (by decide)

/-! ## Claim C8 -/

/-- Claim C8: per-id read-failure isolation.  In the per-event loop of
`fetchUserInvoices`, every log whose `getInvoiceDetails` read succeeds
contributes its entity to the batch result, whatever the reads of the other
logs do (a throwing read is caught and skipped, never aborting the batch);
likewise in the probe loop of `fetchInvoices` for every probed id whose read
succeeds with a truthy supplier. -/
theorem per_id_read_failure_isolation (L : Ledger) :
    (∀ logs : List MintLog, ∀ l ∈ logs, l.tokenId ≠ 0 →
      ∀ d, L.getInvoiceDetails l.tokenId = some d →
        mkInvoice l.tokenId d ∈ processLogs L logs) ∧
    (∀ a : String, a ≠ "" → ∀ t ∈ tokenRange, ∀ d,
      L.getInvoiceDetails t = some d → d.supplier ≠ "" →
        mkInvoice t d ∈ (fetchInvoices L a).1) := by
  constructor
  · intro logs l hl hne d hd
    unfold processLogs
    exact List.mem_flatMap.mpr ⟨l, hl, by simp [hne, hd]⟩
  · intro a ha t ht d hd hs
    rw [fetchInvoices_fst L ha]
    exact mem_probeIds ht hd hs

/-- Witness for C8: in a batch where the read of token id 5 throws, the
successfully read token id 3 still appears — both in the event loop and in
the probe loop. -/
theorem per_id_read_failure_isolation_witness :
    mkInvoice 3 rawAt3 ∈
      processLogs ledgerT3 [{ tokenId := 5 }, { tokenId := 3 }] ∧
    mkInvoice 3 rawAt3 ∈ (fetchInvoices ledgerT3 "0xalice").1 := by
  have h := per_id_read_failure_isolation ledgerT3
  exact ⟨h.1 [{ tokenId := 5 }, { tokenId := 3 }] { tokenId := 3 } (by decide)
      (by decide) rawAt3 (by decide),
    h.2 "0xalice" (by decide) 3 (by decide) rawAt3 (by decide) (by decide)⟩

/-! ## Claim C1 -/

/-- A fresh ledger observation of token id 1 carrying `isVerified = false`. -/
def raw1false : RawInvoice :=
  { invoiceId := "INV-1", supplier := "0xalice", buyer := "0xbob",
    creditAmount := 100000000, dueDate := 1700000000, ipfsHash := "Qm1",
    isVerified := false }

/-- A ledger on which reading token id 1 yields `isVerified = false`. -/
def ledgerObservingFalse : Ledger :=
  { getInvoiceDetails := fun t => if t = 1 then some raw1false else none }

/-- The previously cached entry for token id 1, with `isVerified = true`. -/
def cachedVerified : Invoice :=
  { id := "1", invoiceId := "INV-1", supplier := "0xalice", buyer := "0xbob",
    creditAmount := 100000000, dueDate := 1700000000000, ipfsHash := "Qm1",
    isVerified := true }

/-- A historical record for token id 2 carrying `isBurned = false`. -/
def histNotBurned : HistoricalInvoiceRecord :=
  { tokenId := 2, invoiceId := "INV-2", supplier := "0xalice",
    buyer := "0xbob", creditAmount := 20000000, dueDate := 1710000000,
    ipfsHash := "Qm2", isVerified := true, mintTime := 1600000000,
    burnTime := 0, isBurned := false, burnReason := "" }

/-- A ledger whose historical path reports token id 2 as not burned. -/
def ledgerObservingNotBurned : Ledger :=
  { getUserMintedTokens := fun a => if a = "0xalice" then some [2] else none
    getHistoricalInvoiceRecord := fun t =>
      if t = 2 then some histNotBurned else none }

/-- The previously cached entry for token id 2, with `isBurned = true`. -/
def cachedBurned : Invoice :=
  { id := "2", invoiceId := "INV-2", supplier := "0xalice", buyer := "0xbob",
    creditAmount := 20000000, dueDate := 1710000000000, ipfsHash := "Qm2",
    isVerified := true, isBurned := some true }

/-- Claim C1, counterexample: the cache holds token id 1 with
`isVerified = true`; a subsequent `fetchInvoices` observing `false` for that
field replaces the whole cached list (`setInvoices(invoicesArr)`), so the
cached value for the same id reverts to `false` — there is no logical-OR
merge of the monotonic flags.  Likewise for `isBurned`: a cached
`isBurned = true` for token id 2 is replaced by `fetchAllUserInvoices`
(`setUserInvoices(allUserInvoices)`) with an observation carrying `false`. -/
theorem merge_false_overwrites_true :
    cachedVerified.isVerified = true ∧
    raw1false.isVerified = false ∧
    applyFetchInvoices [cachedVerified] ledgerObservingFalse "0xalice" =
      [mkInvoice 1 raw1false] ∧
    (mkInvoice 1 raw1false).id = cachedVerified.id ∧
    (mkInvoice 1 raw1false).isVerified = false ∧
    cachedBurned.isBurned = some true ∧
    applyFetchAllUserInvoices [cachedBurned] ledgerObservingNotBurned
      "0xalice" = [histToInvoice 2 histNotBurned] ∧
    (histToInvoice 2 histNotBurned).id = cachedBurned.id ∧
    (histToInvoice 2 histNotBurned).isBurned = some false := by decide

/-- Claim C1 (amended): the cache updates of `fetchInvoices` and
`fetchAllUserInvoices` are wholesale replacements, not merges: the new
cached list is determined by the fresh fetch alone and is independent of the
previously cached entries, so a cached `true` flag survives only if the new
observation also carries `true`. -/
theorem cache_update_is_replacement (prev1 prev2 : List Invoice) (L : Ledger)
    (a : String) :
    applyFetchInvoices prev1 L a = applyFetchInvoices prev2 L a ∧
    applyFetchAllUserInvoices prev1 L a = applyFetchAllUserInvoices prev2 L a :=
  ⟨rfl, rfl⟩

/-! ## Claim C7 -/

/-- The ledger of `ledgerT3` with the `totalSupply` read throwing. -/
def ledgerSupplyUnavailable : Ledger :=
  { totalSupply := none
    getInvoiceDetails := fun t => if t = 3 then some rawAt3 else none }

/-- The ledger of `ledgerT3` with `totalSupply` legitimately reading 0. -/
def ledgerSupplyZero : Ledger :=
  { totalSupply := some 0
    getInvoiceDetails := fun t => if t = 3 then some rawAt3 else none }

/-- Claim C7, counterexample: an unavailable `totalSupply` read and a
legitimate zero read produce identical subsequent behaviour — the catch
branch assigns `totalSupply = 0n`, so the derived probe bound (20 in both
cases) and the whole `fetchInvoices` outcome coincide; `unavailable` is not
treated distinctly from `zero`. -/
theorem unavailable_totalSupply_equals_zero_read :
    ledgerSupplyUnavailable.totalSupply = none ∧
    ledgerSupplyZero.totalSupply = some 0 ∧
    maxTokensToCheck ledgerSupplyUnavailable = 20 ∧
    maxTokensToCheck ledgerSupplyZero = 20 ∧
    fetchInvoices ledgerSupplyUnavailable "0xalice" =
      fetchInvoices ledgerSupplyZero "0xalice" := by decide

/-- Claim C7 (amended): the catch branch collapses an unavailable
`totalSupply` to `0n`: any ledger whose supply read throws behaves exactly
like one whose supply reads 0 — equal effective supply, equal derived probe
bound, and (given equal point reads) equal `fetchInvoices` results at every
address. -/
theorem unavailable_treated_as_zero (L1 L2 : Ledger)
    (h1 : L1.totalSupply = none) (h2 : L2.totalSupply = some 0) :
    effectiveTotalSupply L1 = effectiveTotalSupply L2 ∧
    maxTokensToCheck L1 = maxTokensToCheck L2 ∧
    (L1.getInvoiceDetails = L2.getInvoiceDetails →
      ∀ a, fetchInvoices L1 a = fetchInvoices L2 a) := by
  have he : effectiveTotalSupply L1 = effectiveTotalSupply L2 := by
    simp [effectiveTotalSupply, h1, h2]
  refine ⟨he, by simp [maxTokensToCheck, he], fun hg a => ?_⟩
  have hp : probeToken L1 = probeToken L2 := by
    funext t
    simp only [probeToken, hg]
  simp only [fetchInvoices, probeIds, hp]

/-- Witness for the amended C7 at the two concrete ledgers above. -/
theorem unavailable_treated_as_zero_witness :
    maxTokensToCheck ledgerSupplyUnavailable = maxTokensToCheck ledgerSupplyZero ∧
    fetchInvoices ledgerSupplyUnavailable "0xalice" =
      fetchInvoices ledgerSupplyZero "0xalice" := by
  have h := unavailable_treated_as_zero ledgerSupplyUnavailable ledgerSupplyZero
    (by decide) (by decide)
  exact ⟨h.2.1, h.2.2 rfl "0xalice"⟩

/-! ## Claim C3 -/

/-- A ledger entity at token id 21 owned by alice. -/
def rawAt21Alice : RawInvoice :=
  { invoiceId := "INV-21A", supplier := "0xalice", buyer := "0xbob",
    creditAmount := 42000000, dueDate := 1900000000, ipfsHash := "Qm21a",
    isVerified := false }

/-- A ledger whose event window contains alice's mint of token id 21 and
whose range queries work. -/
def ledgerScanOk : Ledger :=
  { getInvoiceDetails := fun t => if t = 21 then some rawAt21Alice else none
    logsFor := fun a => if a = "0xalice" then some [{ tokenId := 21 }] else some []
    allLogs := some [{ tokenId := 21 }] }

/-- The same ledger entities with every `getLogs` range query throwing. -/
def ledgerScanBroken : Ledger :=
  { getInvoiceDetails := fun t => if t = 21 then some rawAt21Alice else none }

/-- Claim C3, counterexample: same ledger entities and owner; with working
range queries `fetchUserInvoices` stores alice's token 21, but when
`getLogs` throws, the fallback probes only token ids 1..20 and stores the
empty list — the degraded sync does not return the same entity set for the
owner. -/
theorem degraded_sync_not_equivalent :
    ledgerScanBroken.getInvoiceDetails = ledgerScanOk.getInvoiceDetails ∧
    ledgerScanBroken.logsFor "0xalice" = none ∧
    (fetchUserInvoices ledgerScanOk "0xalice").1 =
      some [mkInvoice 21 rawAt21Alice] ∧
    (fetchUserInvoices ledgerScanBroken "0xalice").1 = some [] ∧
    some [mkInvoice 21 rawAt21Alice] ≠ (some ([] : List Invoice)) := by
  refine ⟨rfl, by decide, by decide, by decide, by decide⟩

/-- Claim C3 (amended): when the range query throws, `fetchUserInvoices`
does not raise — it stores exactly the fallback enumeration (the entities
with token id in 1..20 whose supplier matches the user case-insensitively),
and every such entity is found; this set need not coincide with what working
range queries would have returned. -/
theorem degraded_sync_stores_fallback (L : Ledger) (a : String)
    (hfail : L.logsFor a = none) :
    (fetchUserInvoices L a).1 = some (fallbackUser L a) ∧
    (∀ t ∈ tokenRange, ∀ d, L.getInvoiceDetails t = some d →
      lowerStr d.supplier = lowerStr a → mkInvoice t d ∈ fallbackUser L a) := by
  constructor
  · unfold fetchUserInvoices
    rw [hfail]
    by_cases he : (fallbackUser L a).isEmpty
    · simp only [he, if_pos]
      rw [List.isEmpty_iff.mp he]
    · simp [he]
  · intro t ht d hd hs
    unfold fallbackUser
    exact List.mem_flatMap.mpr ⟨t, ht, by simp [hd, hs]⟩

/-- Witness for the amended C3: against `ledgerT3` (whose log queries all
throw), the degraded sync stores the fallback set, which contains alice's
token 3. -/
theorem degraded_sync_stores_fallback_witness :
    (fetchUserInvoices ledgerT3 "0xalice").1 =
      some (fallbackUser ledgerT3 "0xalice") ∧
    mkInvoice 3 rawAt3 ∈ fallbackUser ledgerT3 "0xalice" := by
  have h := degraded_sync_stores_fallback ledgerT3 "0xalice" (by decide)
  exact ⟨h.1, h.2 3 (by decide) rawAt3 (by decide) (by decide)⟩

/-! ## Claim C9 -/

/-- Claim C9: `fetchUserInvoices` always performs an extra hardcoded point
read of token id 7 after the event scan; if that read succeeds, the returned
supplier is exactly (case-sensitively) equal to the requested `userAddress`,
and no entry with id `"7"` is already in the batch, the entity is appended
to the stored user invoice list — regardless of the scanned window's
contents (the event logs are arbitrary here). -/
theorem direct_token7_check_appends (L : Ledger) (a : String)
    (logs al : List MintLog) (d : RawInvoice)
    (hlogs : L.logsFor a = some logs) (hal : L.allLogs = some al)
    (h7 : L.getInvoiceDetails 7 = some d) (hsup : d.supplier = a)
    (hnew : (processLogs L logs).any (fun inv => inv.id = "7") = false) :
    (fetchUserInvoices L a).1 = some (processLogs L logs ++ [mkInvoice 7 d]) := by
  unfold fetchUserInvoices
  rw [hlogs, hal]
  simp [directCheck7, h7, hsup, hnew]

/-- A ledger entity at token id 7 owned by alice. -/
def rawAt7 : RawInvoice :=
  { invoiceId := "INV-7", supplier := "0xalice", buyer := "0xbob",
    creditAmount := 7000000, dueDate := 1750000000, ipfsHash := "Qm7",
    isVerified := true }

/-- A ledger with an empty scanned window whose token id 7 belongs to alice. -/
def ledgerDirect7 : Ledger :=
  { getInvoiceDetails := fun t => if t = 7 then some rawAt7 else none
    logsFor := fun _ => some []
    allLogs := some [] }

/-- Witness for C9: no mint event is in the window, yet token 7 is appended. -/
theorem direct_token7_check_appends_witness :
    (fetchUserInvoices ledgerDirect7 "0xalice").1 =
      some (processLogs ledgerDirect7 [] ++ [mkInvoice 7 rawAt7]) :=
  direct_token7_check_appends ledgerDirect7 "0xalice" [] [] rawAt7 (by decide)
    (by decide) (by decide) (by decide) (by decide)

/-! ## Claim C4 -/

/-- Claim C4: no premature visibility and atomicity on mutation failure, for
`mintInvoiceNFT` and `verifyInvoice` (wallet paths).  The caches are
refetched only after `waitForTransactionReceipt` succeeds: any change to the
hook state implies the receipt succeeded; if the receipt fails (or the
simulate/submit ledger call throws) the state is left unchanged and the
error is surfaced to the caller (a thrown error, never a success); and
`verifyInvoice` never touches `userInvoices` at all. -/
theorem no_premature_visibility (env : MutationEnv) (a amount : String)
    (dueDate : Int) (s : HookState) :
    ((mintInvoiceNFT env a amount dueDate s).1 ≠ s → env.receipt = true) ∧
    (env.receipt = false →
      (mintInvoiceNFT env a amount dueDate s).1 = s ∧
      ∀ h, (mintInvoiceNFT env a amount dueDate s).2 ≠ .success h) ∧
    (env.simulate = none ∨ env.submit = none →
      (mintInvoiceNFT env a amount dueDate s).1 = s ∧
      ∀ h, (mintInvoiceNFT env a amount dueDate s).2 ≠ .success h) ∧
    ((verifyInvoice env a s).1.userInvoices = s.userInvoices) ∧
    ((verifyInvoice env a s).1 ≠ s → env.receipt = true) ∧
    (env.receipt = false →
      (verifyInvoice env a s).1 = s ∧
      ∀ h, (verifyInvoice env a s).2 ≠ .success h) ∧
    (env.simulate = none ∨ env.submit = none →
      (verifyInvoice env a s).1 = s ∧
      ∀ h, (verifyInvoice env a s).2 ≠ .success h) := by
  obtain ⟨sim, sub, rec, post⟩ := env
  unfold mintInvoiceNFT verifyInvoice
  rcases hp : parseAmount amount with _ | v <;>
    by_cases ha : a = "" <;>
    cases sim <;> cases sub <;> cases rec <;>
    simp_all

/-- The mutation pipeline with a failing finality wait. -/
def envReceiptFails : MutationEnv :=
  { simulate := some (), submit := some "0xhash", receipt := false }

/-- A concrete prior hook state. -/
def s0 : HookState := { invoices := [cachedVerified], userInvoices := [] }

/-- Witness for C4: with the receipt failing, a concrete mint leaves the
state unchanged. -/
theorem no_premature_visibility_witness :
    (mintInvoiceNFT envReceiptFails "0xalice" "100" 1234 s0).1 = s0 :=
  ((no_premature_visibility envReceiptFails "0xalice" "100" 1234 s0).2.1
    (by decide)).1

/-! ## Claim C6 -/

/-- The mutation pipeline with every ledger call succeeding. -/
def envAllOk : MutationEnv :=
  { simulate := some (), submit := some "0xhash", receipt := true }

/-- The mutation pipeline whose `simulateContract` call throws. -/
def envSimulateThrows : MutationEnv :=
  { simulate := none, submit := some "0xhash", receipt := true }

/-- Claim C6, counterexample: a mint request with amount `"0"` (violating
`amount > 0`) and a due date in the past (epoch second 0) is not rejected
before the ledger: the pipeline proceeds to `simulateContract` — reporting
the simulate error when that call throws, and full success when the ledger
calls succeed — instead of failing fast with a validation error. -/
theorem invalid_mint_reaches_ledger :
    parseAmount "0" = some 0 ∧
    (mintInvoiceNFT envSimulateThrows "0xalice" "0" 0 s0).2 =
      .ledgerError "simulateContract" ∧
    (mintInvoiceNFT envAllOk "0xalice" "0" 0 s0).2 = .success "0xhash" := by
  decide

/-- Claim C6 (amended): `mintInvoiceNFT` performs no validation of the
amount's positivity, the due date or the other fields; the only computation
before the ledger pipeline is the amount conversion, so whenever the amount
string parses — zero included — and whatever the due date, the ledger is
interacted with: the outcome is never a pre-submission validation error. -/
theorem mint_validation_only_parse (env : MutationEnv) (a amount : String)
    (dueDate : Int) (s : HookState) (v : Int)
    (hp : parseAmount amount = some v) :
    ∀ e, (mintInvoiceNFT env a amount dueDate s).2 ≠ .validationError e := by
  obtain ⟨sim, sub, rec, post⟩ := env
  unfold mintInvoiceNFT
  rw [hp]
  by_cases ha : a = "" <;> cases sim <;> cases sub <;> cases rec <;> simp_all

/-- Witness for the amended C6 at amount `"0"` and a past due date. -/
theorem mint_validation_only_parse_witness :
    (mintInvoiceNFT envAllOk "0xalice" "0" 0 s0).2 ≠ .validationError "x" :=
  mint_validation_only_parse envAllOk "0xalice" "0" 0 s0 0 (by decide) "x"

/-! ## Claim C5 -/

/-- A statistics record the ledger reports for alice. -/
def statsFive : UserInvoiceStatistics :=
  { totalMinted := 5, totalBurned := 0, totalActive := 5,
    totalCreditAmount := 0 }

/-- A ledger that reports `statsFive` for alice while resolving no entity. -/
def ledgerStats : Ledger :=
  { statsFor := fun a => if a = "0xalice" then some statsFive else none }

/-- Claim C5, counterexample: the ledger reports `totalMinted = 5` for alice
while the cache the hook would hold for her (what `fetchInvoices` stores
against the same ledger) is empty; `getUserInvoiceStatistics` returns the
ledger's figures verbatim, not the spec's pure derivation over the cached
entities. -/
theorem statistics_not_derived_from_cache :
    getUserInvoiceStatistics ledgerStats "0xalice" = some statsFive ∧
    (fetchInvoices ledgerStats "0xalice").1 = [] ∧
    specDerivedStatistics ((fetchInvoices ledgerStats "0xalice").1) =
      { totalMinted := 0, totalBurned := 0, totalActive := 0,
        totalCreditAmount := 0 } ∧
    getUserInvoiceStatistics ledgerStats "0xalice" ≠
      some (specDerivedStatistics ((fetchInvoices ledgerStats "0xalice").1)) := by
  decide

/-- Claim C5 (amended): `getUserInvoiceStatistics` is a pass-through of the
ledger's statistics read — it returns the ledger-reported record unchanged
on success and null when the read throws, computing nothing over the cached
entities and keeping no storage of its own. -/
theorem statistics_pass_through (L : Ledger) (a : String) :
    (∀ st, L.statsFor a = some st →
      getUserInvoiceStatistics L a = some st) ∧
    (L.statsFor a = none → getUserInvoiceStatistics L a = none) := by
  constructor
  · intro st h
    unfold getUserInvoiceStatistics
    rw [h]
  · intro h
    unfold getUserInvoiceStatistics
    rw [h]

/-- Witness for the amended C5 at the concrete statistics ledger. -/
theorem statistics_pass_through_witness :
    getUserInvoiceStatistics ledgerStats "0xalice" = some statsFive :=
  (statistics_pass_through ledgerStats "0xalice").1 statsFive (by decide)

end MetrikInvoice
